import Mathlib

/-!
# Verification of the Kronon client back-office against its specification

This file gives a shallow embedding, in Lean 4, of the parts of the Kronon
repository (a Django/Ninja back-office for accounting clients) that the
specification's testable claims are about:

* the UNP (Belarusian tax identifier) checksum validator
  (`apps/common/validators.py`, `validate_unp`);
* the soft-delete query layer (`apps/common/managers.py`,
  `SoftDeleteQuerySet` / `SoftDeleteManager`) and the soft-delete /
  restore methods on the base model (`apps/common/models.py`,
  `BaseModel.adelete` / `BaseModel.arestore`);
* the `Client` data model, its JSON `contact_info` patch-merge method
  (`apps/clients/models.py`, `Client.patch_contact_data`);
* the read selectors (`apps/clients/selectors.py`) and the REST handlers
  (`apps/clients/api/v1.py`): list with page-number pagination, get by id,
  create under the unique-UNP database constraint with the error handlers
  registered in `config/api.py`, patch, soft delete, and the staff-only
  audit-history endpoint over the pghistory event table.

Database rows are modelled as Lean structures, tables as lists of rows,
timestamps as naturals, UUIDs as naturals (UUIDv7 is time-sortable, so a
naturally ordered scalar id is a faithful model), and JSON values as an
inductive `JVal` type.  Fallible operations return `Except`/sum results.
-/

set_option maxRecDepth 8192

namespace Kronon

/-! ## JSON values

The `contact_info` column of `Client` is a JSON field.  A JSON value is
null, a string, an array, or an object (a finite list of string-keyed
fields, unique keys, insertion-ordered, as a Python `dict`). Numbers and
booleans never occur in the contact payloads, which are built from
strings and nested contact objects only. -/

inductive JVal where
  | null
  | str (s : String)
  | arr (xs : List JVal)
  | obj (fields : List (String × JVal))
deriving Repr

/-! ## UNP checksum validator

Embedding of `validate_unp` from `apps/common/validators.py`.  The Python
function raises `ValidationError` on bad input and returns `None` on
success; we model it as a `Bool` (`true` = accepted).  `str.isdigit` on a
decimal string means: non-empty and every character a decimal digit. -/

/-- Python `str.isdigit` restricted to decimal digits: the string is
non-empty and every character is one of `0`..`9`. -/
def pyIsDigit (s : String) : Bool :=
  !s.toList.isEmpty && s.toList.all Char.isDigit

/-- The fixed checksum weights of the first eight digits
(`weights = [29, 23, 19, 17, 13, 7, 5, 3]`). -/
def unpWeights : List Nat := [29, 23, 19, 17, 13, 7, 5, 3]

/-- `digits = [int(digit) for digit in unp]`: the numeric value of each
character of the string. -/
def unpDigits (s : String) : List Nat :=
  s.toList.map (fun c => c.toNat - '0'.toNat)

/-- `checksum = sum(digit * weight for digit, weight in zip(digits[:8], weights))`. -/
def unpChecksum (ds : List Nat) : Nat :=
  ((ds.take 8).zip unpWeights).foldl (fun acc p => acc + p.1 * p.2) 0

/-- Embedding of `validate_unp`:
reject unless the string is nine decimal digits; compute the weighted
checksum of the first eight digits mod 11; reject if the remainder is 10;
otherwise accept exactly when the remainder equals the ninth digit. -/
def validate_unp (s : String) : Bool :=
  if !pyIsDigit s || s.toList.length != 9 then false
  else
    let digits := unpDigits s
    let remainder := unpChecksum digits % 11
    if remainder == 10 then false
    else remainder == digits.getD 8 0

/-- The well-formedness condition named by the spec: the string consists
of exactly nine decimal digits. -/
def isNineDecimalDigits (s : String) : Prop :=
  s.toList.length = 9 ∧ s.toList.all Char.isDigit = true

instance (s : String) : Decidable (isNineDecimalDigits s) := by
  unfold isNineDecimalDigits; infer_instance

/-- A digit extracted from a decimal-digit character is at most 9. -/
theorem unpDigits_getD_le (s : String) (hd : s.toList.all Char.isDigit = true)
    (hlen : s.toList.length = 9) : (unpDigits s).getD 8 0 ≤ 9 := by
  have h8 : 8 < s.toList.length := by omega
  have hmem : s.toList[8] ∈ s.toList := List.getElem_mem h8
  have hdig : Char.isDigit (s.toList[8]) = true := by
    rw [List.all_eq_true] at hd
    exact hd _ hmem
  have hval : (s.toList[8]).toNat ≤ 57 := by
    unfold Char.isDigit at hdig
    simp only [Bool.and_eq_true, decide_eq_true_eq] at hdig
    exact_mod_cast hdig.2
  have hlen' : 8 < (unpDigits s).length := by
    unfold unpDigits
    rw [List.length_map]
    omega
  rw [List.getD_eq_getElem _ _ hlen']
  have heq : (unpDigits s)[8] = (s.toList[8]).toNat - '0'.toNat := by
    unfold unpDigits
    rw [List.getElem_map]
  rw [heq]
  have h48 : '0'.toNat = 48 := rfl
  omega

/-- A nine-character string, viewed as a character list, is non-empty. -/
theorem toList_isEmpty_false_of_nine (s : String) (hlen : s.toList.length = 9) :
    s.toList.isEmpty = false := by
  cases h : s.toList with
  | nil => rw [h] at hlen; simp at hlen
  | cons a l => rfl

/-- C1: the UNP validator accepts a string exactly when it consists of
nine decimal digits whose ninth digit equals the weighted sum of the
first eight digits (weights `[29, 23, 19, 17, 13, 7, 5, 3]`) mod 11; in
particular it rejects whenever that remainder is 10 (a digit can never
equal 10), and it rejects every string that is not nine decimal digits. -/
theorem validate_unp_spec :
    (∀ s : String, validate_unp s = true ↔
        (isNineDecimalDigits s ∧
         (unpDigits s).getD 8 0 = unpChecksum (unpDigits s) % 11)) ∧
    (∀ s : String, unpChecksum (unpDigits s) % 11 = 10 → validate_unp s = false) := by
  constructor
  · intro s
    by_cases h9 : isNineDecimalDigits s
    · obtain ⟨hlen, hdig⟩ := h9
      have hne := toList_isEmpty_false_of_nine s hlen
      have hpd : pyIsDigit s = true := by
        unfold pyIsDigit
        rw [hne, hdig]
        rfl
      unfold validate_unp
      rw [hpd, hlen]
      simp only [Bool.not_true, Bool.false_or, ne_eq, bne_self_eq_false, if_false,
        Bool.false_eq_true]
      by_cases hrem : unpChecksum (unpDigits s) % 11 = 10
      · rw [if_pos (by simpa using hrem)]
        have hle := unpDigits_getD_le s hdig hlen
        constructor
        · intro hfalse; exact absurd hfalse (by simp)
        · intro ⟨_, hd8⟩
          rw [hrem] at hd8
          omega
      · rw [if_neg (by simpa using hrem)]
        rw [beq_iff_eq]
        constructor
        · intro h; exact ⟨⟨hlen, hdig⟩, h.symm⟩
        · intro ⟨_, h⟩; exact h.symm
    · have hguard : (!pyIsDigit s || s.toList.length != 9) = true := by
        unfold isNineDecimalDigits at h9
        push_neg at h9
        by_cases hlen : s.toList.length = 9
        · have hdig := h9 hlen
          have : pyIsDigit s = false := by
            unfold pyIsDigit
            rw [Bool.and_eq_false_iff]
            right
            exact Bool.not_eq_true _ ▸ (by simpa using hdig)
          rw [this]; rfl
        · rw [Bool.or_eq_true]
          right
          simpa using hlen
      unfold validate_unp
      rw [if_pos hguard]
      simp only [Bool.false_eq_true, false_iff]
      intro ⟨h, _⟩
      exact h9 h
  · intro s h10
    unfold validate_unp
    by_cases hguard : (!pyIsDigit s || s.toList.length != 9) = true
    · rw [if_pos hguard]
    · rw [if_neg hguard]
      rw [if_pos (by simpa using h10)]

/-- Concrete instances of C1: `"100000007"` (checksum 29, remainder 7,
check digit 7) is accepted; `"000001010"` has checksum remainder 10 and
is rejected. -/
theorem validate_unp_spec_witness :
    validate_unp "100000007" = true ∧ validate_unp "000001010" = false :=
  ⟨(validate_unp_spec.1 "100000007").mpr (by decide),
   validate_unp_spec.2 "000001010" (by decide)⟩

/-! ## Python dictionaries

`contact_info` is stored as a JSON object; `Client.patch_contact_data`
merges it with a partial-update payload by dict double-splat unpacking:
the result has the current dict's entries, with values overridden by the
update dict, followed by the update dict's new keys. -/

/-- First-occurrence key lookup in an association-list dictionary. -/
def dictGet (fields : List (String × JVal)) (k : String) : Option JVal :=
  match fields with
  | [] => none
  | (k', v) :: rest => if k' = k then some v else dictGet rest k

/-- Key membership in an association-list dictionary. -/
def dictHasKey (fields : List (String × JVal)) (k : String) : Bool :=
  match fields with
  | [] => false
  | (k', _) :: rest => k' == k || dictHasKey rest k

/-- Python dict merge by double-splat unpacking of `a` then `b`: the
entries of `a` (values overridden by `b` where the key is shared)
followed by the entries of `b` whose keys are new. -/
def dictMerge (a b : List (String × JVal)) : List (String × JVal) :=
  a.map (fun p =>
      match dictGet b p.1 with
      | some v => (p.1, v)
      | none => p)
    ++ b.filter (fun p => !dictHasKey a p.1)

/-- The fields of a JSON object (the empty dictionary for non-objects,
mirroring the `isinstance(self.contact_info, dict)` guard). -/
def objFields : JVal → List (String × JVal)
  | JVal.obj fields => fields
  | _ => []

theorem dictGet_append (a b : List (String × JVal)) (k : String) :
    dictGet (a ++ b) k =
      match dictGet a k with
      | some v => some v
      | none => dictGet b k := by
  induction a with
  | nil => simp [dictGet]
  | cons p rest ih =>
    obtain ⟨k', v⟩ := p
    by_cases h : k' = k
    · simp [dictGet, h]
    · simp [dictGet, h, ih]

theorem dictHasKey_eq_isSome (a : List (String × JVal)) (k : String) :
    dictHasKey a k = (dictGet a k).isSome := by
  induction a with
  | nil => simp [dictHasKey, dictGet]
  | cons p rest ih =>
    obtain ⟨k', v⟩ := p
    by_cases h : k' = k
    · simp [dictHasKey, dictGet, h]
    · simp [dictHasKey, dictGet, h, ih]

theorem dictGet_map_override (a b : List (String × JVal)) (k : String) :
    dictGet
      (a.map (fun p =>
        match dictGet b p.1 with
        | some v => (p.1, v)
        | none => p)) k =
      (dictGet a k).map (fun v => (dictGet b k).getD v) := by
  induction a with
  | nil => simp [dictGet]
  | cons p rest ih =>
    obtain ⟨k', v'⟩ := p
    by_cases h : k' = k
    · subst h
      cases hb : dictGet b k' <;> simp [dictGet, hb]
    · cases hb : dictGet b k' <;> simp [dictGet, hb, h, ih]

theorem dictGet_filter_new (a b : List (String × JVal)) (k : String) :
    dictGet (b.filter (fun p => !dictHasKey a p.1)) k =
      if dictHasKey a k then none else dictGet b k := by
  induction b with
  | nil => simp [dictGet]
  | cons p rest ih =>
    obtain ⟨k', v'⟩ := p
    by_cases hk : dictHasKey a k' = true
    · rw [List.filter_cons_of_neg (by simp [hk])]
      rw [ih]
      by_cases h : k' = k
      · subst h
        simp [hk, dictGet]
      · simp [dictGet, h]
    · rw [List.filter_cons_of_pos (by simp [hk])]
      by_cases h : k' = k
      · subst h
        simp only [Bool.not_eq_true] at hk
        simp [dictGet, hk]
      · simp [dictGet, h, ih]

/-- The key lemma about Python dict merge: a key's value in the merged
dictionary is its value in the update dict when present there, and its
value in the base dict otherwise. -/
theorem dictGet_merge (a b : List (String × JVal)) (k : String) :
    dictGet (dictMerge a b) k =
      match dictGet b k with
      | some v => some v
      | none => dictGet a k := by
  unfold dictMerge
  rw [dictGet_append, dictGet_map_override, dictGet_filter_new,
    dictHasKey_eq_isSome]
  cases ha : dictGet a k <;> cases hb : dictGet b k <;> simp

/-! ## Contact payloads and `Client.patch_contact_data`

Embedding of `ContactPerson` / `ClientContactInfoUpdate`
(`apps/clients/types.py`, `apps/clients/schemas/contacts.py`) and of the
model method `Client.patch_contact_data` (`apps/clients/models.py`).

Pydantic set-ness is modelled by an outer `Option`: `none` means the
field was never supplied (excluded by `exclude_unset=True`), `some none`
means it was explicitly supplied as JSON null, and `some (some v)` means
it was supplied with value `v`. -/

structure ContactPerson where
  role : Option String := none
  full_name : Option String := none
  email : Option String := none
  phone : Option String := none
deriving Repr, DecidableEq

/-- JSON serialization of an optional string (`None` becomes null). -/
def jOptStr : Option String → JVal
  | none => JVal.null
  | some s => JVal.str s

/-- JSON-mode dump of one contact person. -/
def ContactPerson.toJVal (p : ContactPerson) : JVal :=
  JVal.obj [("role", jOptStr p.role), ("full_name", jOptStr p.full_name),
    ("email", jOptStr p.email), ("phone", jOptStr p.phone)]

/-- The PATCH schema for the structured contact payload: five optional
scalar fields and the optional wholesale-replaced `contacts` list. -/
structure ClientContactInfoUpdate where
  general_email : Option (Option String) := none
  general_phone : Option (Option String) := none
  address_legal : Option (Option String) := none
  address_mailing : Option (Option String) := none
  website : Option (Option String) := none
  contacts : Option (Option (List ContactPerson)) := none
deriving Repr, DecidableEq

/-- The dict entry contributed by one schema field under
`exclude_unset=True`: nothing when unset, a (possibly null) JSON value
when set. -/
def setField (name : String) : Option (Option String) → List (String × JVal)
  | none => []
  | some v => [(name, jOptStr v)]

/-- `model_dump(exclude_unset=True, mode="json")` of the PATCH schema:
only the supplied fields appear; supplied nulls are kept (the dump does
not pass `exclude_none`). -/
def ClientContactInfoUpdate.model_dump (u : ClientContactInfoUpdate) :
    List (String × JVal) :=
  setField "general_email" u.general_email ++
  setField "general_phone" u.general_phone ++
  setField "address_legal" u.address_legal ++
  setField "address_mailing" u.address_mailing ++
  setField "website" u.website ++
  (match u.contacts with
   | none => []
   | some none => [("contacts", JVal.null)]
   | some (some ps) => [("contacts", JVal.arr (ps.map ContactPerson.toJVal))])

/-- Embedding of `Client.patch_contact_data`: take the current stored
dict (the empty dict when the stored value is not a JSON object), dump
the supplied update fields, return the stored value unchanged when
nothing was supplied, and otherwise merge the update dict over the
current dict by double-splat unpacking. -/
def patch_contact_data (contact_info : JVal) (data : ClientContactInfoUpdate) :
    JVal :=
  let current := objFields contact_info
  let updates := data.model_dump
  if updates.isEmpty then contact_info
  else JVal.obj (dictMerge current updates)

/-- Shared bridge: any key present in the dumped update dict ends up in
the patched object with exactly the dumped value. -/
theorem patch_contact_data_sets_key (fields : List (String × JVal))
    (data : ClientContactInfoUpdate) (k : String) (v : JVal)
    (h : dictGet data.model_dump k = some v) :
    dictGet (objFields (patch_contact_data (JVal.obj fields) data)) k = some v := by
  have hne : data.model_dump.isEmpty = false := by
    cases hd : data.model_dump with
    | nil => rw [hd] at h; simp [dictGet] at h
    | cons p rest => rfl
  unfold patch_contact_data
  simp [hne, objFields, dictGet_merge, h]

/-- Shared bridge: any key absent from the dumped update dict keeps its
value from the stored dict. -/
theorem patch_contact_data_keeps_key (fields : List (String × JVal))
    (data : ClientContactInfoUpdate) (k : String)
    (h : dictGet data.model_dump k = none) :
    dictGet (objFields (patch_contact_data (JVal.obj fields) data)) k =
      dictGet fields k := by
  unfold patch_contact_data
  by_cases he : data.model_dump.isEmpty
  · simp [he, objFields]
  · rw [Bool.not_eq_true] at he
    simp [he, objFields, dictGet_merge, h]

/-- Looking up a key in the dict chunk contributed by one schema field:
the dumped value when the names match, nothing otherwise. -/
theorem dictGet_setField (name k : String) (o : Option (Option String)) :
    dictGet (setField name o) k = if name = k then o.map jOptStr else none := by
  cases o with
  | none => simp [setField, dictGet]
  | some v =>
    by_cases h : name = k <;> simp [setField, dictGet, h]

/-- A supplied `contacts` list appears in the dumped update dict as the
serialized array. -/
theorem model_dump_contacts (u : ClientContactInfoUpdate)
    (ps : List ContactPerson) (h : u.contacts = some (some ps)) :
    dictGet u.model_dump "contacts" =
      some (JVal.arr (ps.map ContactPerson.toJVal)) := by
  unfold ClientContactInfoUpdate.model_dump
  rw [h]
  simp [dictGet_append, dictGet_setField, dictGet]

/-- C5: partial update of the structured contact sub-object has merge
semantics.  Every top-level key present in the dumped patch overwrites
the stored value for that key; every top-level key absent from the patch
is retained unchanged from the stored dict; and a patch that supplies a
`contacts` list replaces the previous list wholesale with the serialized
new list. -/
theorem patch_contact_data_merge_spec (fields : List (String × JVal))
    (data : ClientContactInfoUpdate) (k : String) :
    (∀ v, dictGet data.model_dump k = some v →
      dictGet (objFields (patch_contact_data (JVal.obj fields) data)) k = some v) ∧
    (dictGet data.model_dump k = none →
      dictGet (objFields (patch_contact_data (JVal.obj fields) data)) k =
        dictGet fields k) ∧
    (∀ ps : List ContactPerson, data.contacts = some (some ps) →
      dictGet (objFields (patch_contact_data (JVal.obj fields) data)) "contacts" =
        some (JVal.arr (ps.map ContactPerson.toJVal))) := by
  refine ⟨fun v h => patch_contact_data_sets_key fields data k v h,
    fun h => patch_contact_data_keeps_key fields data k h,
    fun ps hps => ?_⟩
  exact patch_contact_data_sets_key fields data "contacts" _
    (model_dump_contacts data ps hps)

/-- Concrete instance of C5: starting from a stored dict with
`general_email` and a one-entry `contacts` list, patching only
`general_phone` adds the phone, retains the email and the contacts list;
and a patch supplying a new `contacts` list replaces the old one. -/
theorem patch_contact_data_merge_spec_witness :
    dictGet (objFields (patch_contact_data
        (JVal.obj [("general_email", JVal.str "a@x.by"),
          ("contacts", JVal.arr [JVal.obj [("role", JVal.str "dir")]])])
        { general_phone := some (some "+375291234567") }))
      "general_phone" = some (JVal.str "+375291234567") ∧
    dictGet (objFields (patch_contact_data
        (JVal.obj [("general_email", JVal.str "a@x.by"),
          ("contacts", JVal.arr [JVal.obj [("role", JVal.str "dir")]])])
        { general_phone := some (some "+375291234567") }))
      "general_email" = some (JVal.str "a@x.by") ∧
    dictGet (objFields (patch_contact_data
        (JVal.obj [("general_email", JVal.str "a@x.by"),
          ("contacts", JVal.arr [JVal.obj [("role", JVal.str "dir")]])])
        { general_phone := some (some "+375291234567") }))
      "contacts" = some (JVal.arr [JVal.obj [("role", JVal.str "dir")]]) ∧
    dictGet (objFields (patch_contact_data
        (JVal.obj [("contacts", JVal.arr [JVal.obj [("role", JVal.str "dir")]])])
        { contacts := some (some [{ role := some "buh" }]) }))
      "contacts" =
      some (JVal.arr [JVal.obj [("role", JVal.str "buh"), ("full_name", JVal.null),
        ("email", JVal.null), ("phone", JVal.null)]]) :=
  ⟨(patch_contact_data_merge_spec
      [("general_email", JVal.str "a@x.by"),
        ("contacts", JVal.arr [JVal.obj [("role", JVal.str "dir")]])]
      { general_phone := some (some "+375291234567") } "general_phone").1 _ rfl,
   ((patch_contact_data_merge_spec
      [("general_email", JVal.str "a@x.by"),
        ("contacts", JVal.arr [JVal.obj [("role", JVal.str "dir")]])]
      { general_phone := some (some "+375291234567") } "general_email").2.1
      rfl).trans rfl,
   ((patch_contact_data_merge_spec
      [("general_email", JVal.str "a@x.by"),
        ("contacts", JVal.arr [JVal.obj [("role", JVal.str "dir")]])]
      { general_phone := some (some "+375291234567") } "contacts").2.1
      rfl).trans rfl,
   (patch_contact_data_merge_spec
      [("contacts", JVal.arr [JVal.obj [("role", JVal.str "dir")]])]
      { contacts := some (some [{ role := some "buh" }]) } "contacts").2.2
      _ rfl⟩

/-- C9: a top-level field explicitly supplied as null in the patch is
written into the stored dict as JSON null (nulls are merged, not
ignored), and a patch in which no field was set at all leaves the stored
contact value unchanged. -/
theorem patch_contact_data_null_and_noop_spec (fields : List (String × JVal))
    (data : ClientContactInfoUpdate) :
    ((data.general_email = some none →
      dictGet (objFields (patch_contact_data (JVal.obj fields) data))
        "general_email" = some JVal.null) ∧
     (data.general_phone = some none →
      dictGet (objFields (patch_contact_data (JVal.obj fields) data))
        "general_phone" = some JVal.null) ∧
     (data.address_legal = some none →
      dictGet (objFields (patch_contact_data (JVal.obj fields) data))
        "address_legal" = some JVal.null) ∧
     (data.address_mailing = some none →
      dictGet (objFields (patch_contact_data (JVal.obj fields) data))
        "address_mailing" = some JVal.null) ∧
     (data.website = some none →
      dictGet (objFields (patch_contact_data (JVal.obj fields) data))
        "website" = some JVal.null) ∧
     (data.contacts = some none →
      dictGet (objFields (patch_contact_data (JVal.obj fields) data))
        "contacts" = some JVal.null)) ∧
    (∀ ci : JVal, data = {} → patch_contact_data ci data = ci) := by
  constructor
  · refine ⟨fun h => ?_, fun h => ?_, fun h => ?_, fun h => ?_, fun h => ?_,
      fun h => ?_⟩ <;>
    · apply patch_contact_data_sets_key
      unfold ClientContactInfoUpdate.model_dump
      rw [h]
      simp [dictGet_append, dictGet_setField, dictGet, jOptStr]
  · intro ci h
    subst h
    rfl

/-- Concrete instance of C9: patching with `website` explicitly null
clears the stored website to null, and the all-unset patch is a no-op. -/
theorem patch_contact_data_null_and_noop_spec_witness :
    dictGet (objFields (patch_contact_data
        (JVal.obj [("website", JVal.str "x.by")])
        { website := some none }))
      "website" = some JVal.null ∧
    patch_contact_data (JVal.obj [("website", JVal.str "x.by")]) {} =
      JVal.obj [("website", JVal.str "x.by")] :=
  ⟨(patch_contact_data_null_and_noop_spec [("website", JVal.str "x.by")]
      { website := some none }).1.2.2.2.2.1 rfl,
   (patch_contact_data_null_and_noop_spec [("website", JVal.str "x.by")]
      {}).2 _ rfl⟩

/-! ## The `Client` entity

Embedding of the `Client` model (`apps/clients/models.py`) together with
the `BaseModel` columns it inherits (`apps/common/models.py`).  UUIDv7
primary keys are time-sortable, so they are modelled as naturals;
timestamps are naturals; nullable foreign keys are `Option Nat`. -/

inductive ClientStatus where
  | active | onboarding | archived | lead
deriving Repr, DecidableEq

inductive OrganizationType where
  | ip | ooo | odo | oao | zao | chup | fond | other
deriving Repr, DecidableEq

inductive TaxSystem where
  | usn_no_nds | usn_nds | osn | ip_ediny | ip_podohodny | npd | pvt
deriving Repr, DecidableEq

structure Client where
  id : Nat
  created_at : Nat
  updated_at : Nat
  deleted_at : Option Nat := none
  name : String
  full_legal_name : String := ""
  unp : String
  status : ClientStatus := .onboarding
  org_type : OrganizationType := .ooo
  tax_system : TaxSystem := .usn_no_nds
  department_id : Option Nat := none
  accountant_id : Option Nat := none
  primary_accountant_id : Option Nat := none
  payroll_accountant_id : Option Nat := none
  hr_specialist_id : Option Nat := none
  contact_info : JVal := JVal.obj []
  google_folder_id : String := ""
deriving Repr

/-- `Client._meta.label`. -/
def clientLabel : String := "clients.Client"

/-! ## Soft-delete query layer

Embedding of `SoftDeleteQuerySet` / `SoftDeleteManager`
(`apps/common/managers.py`).  A queryset is a list of rows of any model
that carries the `deleted_at` column of `BaseModel`; the class bundles
the column accessor with the bulk-update write to it. -/

class SoftDeletable (α : Type) where
  deletedAt : α → Option Nat
  withDeletedAt : α → Option Nat → α
  deletedAt_withDeletedAt : ∀ (r : α) (d : Option Nat),
    deletedAt (withDeletedAt r d) = d

instance : SoftDeletable Client where
  deletedAt r := r.deleted_at
  withDeletedAt r d := { r with deleted_at := d }
  deletedAt_withDeletedAt _ _ := rfl

namespace SoftDeleteQuerySet

variable {α : Type} [SoftDeletable α]

/-- `active()`: only the rows whose deletion timestamp is unset. -/
def active (qs : List α) : List α :=
  qs.filter (fun r => (SoftDeletable.deletedAt r).isNone)

/-- `deleted()`: only the rows whose deletion timestamp is set. -/
def deleted (qs : List α) : List α :=
  qs.filter (fun r => (SoftDeletable.deletedAt r).isSome)

/-- Bulk `delete()`: writes the current time into `deleted_at` on every
row of the queryset instead of removing rows, and returns the updated
count paired with the per-model-label count dictionary, mimicking the
standard delete return shape. -/
def delete (label : String) (now : Nat) (qs : List α) :
    List α × (Nat × List (String × Nat)) :=
  ((qs.map (fun r => SoftDeletable.withDeletedAt r (some now))),
   (qs.length, [(label, qs.length)]))

/-- Bulk `restore()`: clears `deleted_at` on every row of the queryset
and returns the updated count. -/
def restore (qs : List α) : List α × Nat :=
  ((qs.map (fun r => SoftDeletable.withDeletedAt r none)), qs.length)

end SoftDeleteQuerySet

namespace SoftDeleteManager

/-- `SoftDeleteManager.get_queryset`: returns every row of the table,
soft-deleted rows included (the manager's docstring keeps them so that
the admin console and cascades keep working). -/
def get_queryset {α : Type} [SoftDeletable α] (table : List α) : List α :=
  table

end SoftDeleteManager

/-- A demonstration client row. -/
def demoClient : Client :=
  { id := 1, created_at := 0, updated_at := 0, name := "ABC",
    unp := "100000007" }

/-- A demonstration soft-deleted client row. -/
def demoDeletedClient : Client :=
  { demoClient with id := 2, deleted_at := some 5 }

/-- C2 fails as stated: the default manager's queryset does NOT exclude
logically-deleted rows.  A concrete soft-deleted client is returned by
`SoftDeleteManager.get_queryset` over a one-row table. -/
theorem soft_delete_default_filter_counterexample :
    demoDeletedClient ∈ SoftDeleteManager.get_queryset [demoDeletedClient] ∧
    demoDeletedClient.deleted_at = some 5 :=
  ⟨List.mem_singleton.mpr rfl, rfl⟩

/-- C2 (amended): the soft-delete query layer provides exclusion of
logically-deleted rows through the explicit `active()` queryset method
(`active` returns exactly the rows with no deletion timestamp), while
the default manager's base queryset deliberately includes soft-deleted
rows; delete operations through the layer set the deletion timestamp on
every row, preserving the rows, and return standard-shaped counts. -/
theorem soft_delete_layer_spec {α : Type} [SoftDeletable α] (tbl : List α)
    (label : String) (now : Nat) :
    (∀ r ∈ SoftDeleteQuerySet.active tbl, SoftDeletable.deletedAt r = none) ∧
    (∀ r ∈ tbl, SoftDeletable.deletedAt r = none →
      r ∈ SoftDeleteQuerySet.active tbl) ∧
    (SoftDeleteManager.get_queryset tbl = tbl) ∧
    ((SoftDeleteQuerySet.delete label now tbl).1.length = tbl.length ∧
     ∀ r ∈ (SoftDeleteQuerySet.delete label now tbl).1,
       SoftDeletable.deletedAt r = some now) ∧
    (SoftDeleteQuerySet.delete label now tbl).2 =
      (tbl.length, [(label, tbl.length)]) := by
  refine ⟨?_, ?_, rfl, ⟨?_, ?_⟩, rfl⟩
  · intro r hr
    have := List.of_mem_filter hr
    simpa [Option.isNone_iff_eq_none] using this
  · intro r hr hd
    apply List.mem_filter.mpr
    exact ⟨hr, by simp [hd]⟩
  · simp [SoftDeleteQuerySet.delete]
  · intro r hr
    simp only [SoftDeleteQuerySet.delete, List.mem_map] at hr
    obtain ⟨r', _, hr'⟩ := hr
    rw [← hr']
    exact SoftDeletable.deletedAt_withDeletedAt r' (some now)

/-- Concrete instance of C2 (amended): over a two-row table with one
active and one soft-deleted client, `active()` keeps the active row, and
bulk delete of the one-row active table reports one timestamped row. -/
theorem soft_delete_layer_spec_witness :
    demoClient ∈ SoftDeleteQuerySet.active [demoClient, demoDeletedClient] ∧
    (SoftDeleteQuerySet.delete clientLabel 7 [demoClient]).2 =
      (1, [(clientLabel, 1)]) :=
  ⟨(soft_delete_layer_spec [demoClient, demoDeletedClient] clientLabel 7).2.1
      demoClient (List.mem_cons_self _ _) rfl,
   (soft_delete_layer_spec [demoClient] clientLabel 7).2.2.2.2⟩

/-! ## Instance soft delete and restore

Embedding of `BaseModel.adelete` / `BaseModel.arestore`
(`apps/common/models.py`), as they act on a `Client` row: both write the
current time into `updated_at`, `adelete` additionally sets `deleted_at`
to that same time and `arestore` clears it, and the save is issued with
`update_fields` restricted to exactly those two columns, so every other
column keeps its value. -/

def Client.adelete (c : Client) (now : Nat) :
    Client × (Nat × List (String × Nat)) :=
  ({ c with deleted_at := some now, updated_at := now },
   (1, [(clientLabel, 1)]))

def Client.arestore (c : Client) (now : Nat) : Client :=
  { c with deleted_at := none, updated_at := now }

/-- C10: soft-deleting an instance writes only `deleted_at` and
`updated_at`, setting both to the same timestamp, leaves every other
column unchanged, and returns `(1, dict with the model label mapped to
1)`; restoring clears `deleted_at`, again touching only those two
columns. -/
theorem adelete_arestore_frame_spec (c : Client) (t t2 : Nat) :
    ((c.adelete t).1.deleted_at = some t ∧ (c.adelete t).1.updated_at = t ∧
     (c.adelete t).2 = (1, [(clientLabel, 1)]) ∧
     (c.adelete t).1.id = c.id ∧ (c.adelete t).1.created_at = c.created_at ∧
     (c.adelete t).1.name = c.name ∧
     (c.adelete t).1.full_legal_name = c.full_legal_name ∧
     (c.adelete t).1.unp = c.unp ∧ (c.adelete t).1.status = c.status ∧
     (c.adelete t).1.org_type = c.org_type ∧
     (c.adelete t).1.tax_system = c.tax_system ∧
     (c.adelete t).1.department_id = c.department_id ∧
     (c.adelete t).1.accountant_id = c.accountant_id ∧
     (c.adelete t).1.primary_accountant_id = c.primary_accountant_id ∧
     (c.adelete t).1.payroll_accountant_id = c.payroll_accountant_id ∧
     (c.adelete t).1.hr_specialist_id = c.hr_specialist_id ∧
     (c.adelete t).1.contact_info = c.contact_info ∧
     (c.adelete t).1.google_folder_id = c.google_folder_id) ∧
    ((c.arestore t2).deleted_at = none ∧ (c.arestore t2).updated_at = t2 ∧
     (c.arestore t2).id = c.id ∧ (c.arestore t2).created_at = c.created_at ∧
     (c.arestore t2).name = c.name ∧
     (c.arestore t2).full_legal_name = c.full_legal_name ∧
     (c.arestore t2).unp = c.unp ∧ (c.arestore t2).status = c.status ∧
     (c.arestore t2).org_type = c.org_type ∧
     (c.arestore t2).tax_system = c.tax_system ∧
     (c.arestore t2).department_id = c.department_id ∧
     (c.arestore t2).accountant_id = c.accountant_id ∧
     (c.arestore t2).primary_accountant_id = c.primary_accountant_id ∧
     (c.arestore t2).payroll_accountant_id = c.payroll_accountant_id ∧
     (c.arestore t2).hr_specialist_id = c.hr_specialist_id ∧
     (c.arestore t2).contact_info = c.contact_info ∧
     (c.arestore t2).google_folder_id = c.google_folder_id) := by
  constructor <;> simp [Client.adelete, Client.arestore]

/-! ## Read selectors

Embedding of `apps/clients/selectors.py`.  The database table is a list
of client rows; `order_by("-id")` is modelled by a stable sort on
descending id (`select_related` is an eager-loading hint with no effect
on the returned rows). -/

abbrev ClientTable := List Client

/-- `get_client_queryset`: the active (non-deleted) clients, ordered by
descending id. -/
def get_client_queryset (tbl : ClientTable) : List Client :=
  List.insertionSort (fun a b => b.id ≤ a.id) (SoftDeleteQuerySet.active tbl)

/-- `get_client_by_id`: the first row of the active queryset filtered to
the requested id (`.afirst()` returns `None` instead of raising). -/
def get_client_by_id (tbl : ClientTable) (cid : Nat) : Option Client :=
  ((get_client_queryset tbl).filter (fun c => c.id == cid)).head?

/-- There is a non-deleted row with the given id. -/
def activeExists (tbl : ClientTable) (cid : Nat) : Prop :=
  ∃ c ∈ tbl, c.id = cid ∧ c.deleted_at = none

instance (tbl : ClientTable) (cid : Nat) : Decidable (activeExists tbl cid) := by
  unfold activeExists; infer_instance

/-- Membership in the base client queryset: exactly the non-deleted
table rows (sorting permutes, filtering selects). -/
theorem mem_get_client_queryset (tbl : ClientTable) (c : Client) :
    c ∈ get_client_queryset tbl ↔ (c ∈ tbl ∧ c.deleted_at = none) := by
  unfold get_client_queryset
  rw [(List.perm_insertionSort (fun a b => b.id ≤ a.id)
    (SoftDeleteQuerySet.active tbl)).mem_iff]
  unfold SoftDeleteQuerySet.active
  rw [List.mem_filter]
  constructor
  · intro ⟨h1, h2⟩
    exact ⟨h1, Option.isNone_iff_eq_none.mp h2⟩
  · intro ⟨h1, h2⟩
    exact ⟨h1, Option.isNone_iff_eq_none.mpr h2⟩

/-- The selector finds a row exactly when a non-deleted row with the id
exists. -/
theorem get_client_by_id_isSome_iff (tbl : ClientTable) (cid : Nat) :
    (get_client_by_id tbl cid).isSome ↔ activeExists tbl cid := by
  unfold get_client_by_id
  rw [Option.isSome_iff_ne_none, Ne, List.head?_eq_none_iff,
    List.filter_eq_nil_iff, not_iff_comm]
  unfold activeExists
  constructor
  · intro hne a ha hid
    rw [beq_iff_eq] at hid
    have hm := (mem_get_client_queryset tbl a).mp ha
    exact hne ⟨a, hm.1, hid, hm.2⟩
  · intro h hex
    obtain ⟨c, hmem, hid, hact⟩ := hex
    exact h c ((mem_get_client_queryset tbl c).mpr ⟨hmem, hact⟩) (by simp [hid])

/-- A row found by the selector is a non-deleted table row with the
requested id. -/
theorem get_client_by_id_sound (tbl : ClientTable) (cid : Nat) (c : Client)
    (h : get_client_by_id tbl cid = some c) :
    c ∈ tbl ∧ c.id = cid ∧ c.deleted_at = none := by
  unfold get_client_by_id at h
  have hmem := List.mem_of_mem_head? (Option.mem_def.mpr h)
  have h2 := List.of_mem_filter hmem
  have hm := (mem_get_client_queryset tbl c).mp (List.mem_of_mem_filter hmem)
  exact ⟨hm.1, by simpa using h2, hm.2⟩

/-! ## REST handlers: get, patch, soft delete

Embedding of `apps/clients/api/v1.py` (minus the HTTP plumbing) and of
the write services in `apps/clients/services.py`.  A handler outcome is
either an error response (status code and message) or a success response
(status code and body). -/

inductive ApiResult (α : Type) where
  | ok (status : Nat) (body : α)
  | err (status : Nat) (message : String)
deriving Repr

/-- The 404 message raised by the client endpoints. -/
def notFoundMsg : String := "Клиент не найден"

/-- `GET /clients/id`. -/
def get_client (tbl : ClientTable) (cid : Nat) : ApiResult Client :=
  match get_client_by_id tbl cid with
  | none => ApiResult.err 404 notFoundMsg
  | some c => ApiResult.ok 200 c

/-- The PATCH schema `ClientUpdate`: an absent field (outer `none`) was
not supplied and is excluded by `exclude_unset=True`; a supplied field
overwrites the model attribute.  The nullable foreign keys can also be
supplied as an explicit null (inner `Option`). -/
structure ClientUpdate where
  name : Option String := none
  full_legal_name : Option String := none
  unp : Option String := none
  status : Option ClientStatus := none
  org_type : Option OrganizationType := none
  tax_system : Option TaxSystem := none
  department_id : Option (Option Nat) := none
  accountant_id : Option (Option Nat) := none
  primary_accountant_id : Option (Option Nat) := none
  payroll_accountant_id : Option (Option Nat) := none
  hr_specialist_id : Option (Option Nat) := none
  contact_info : Option ClientContactInfoUpdate := none
  google_folder_id : Option String := none

/-- The attribute writes performed by the `update_client` service: every
supplied plain field is written over the row attribute, the supplied
contact payload is merged by `patch_contact_data`, and the save stamps
`updated_at` (an `auto_now` column). -/
def applyClientUpdate (c : Client) (d : ClientUpdate) (now : Nat) : Client :=
  { c with
    name := d.name.getD c.name,
    full_legal_name := d.full_legal_name.getD c.full_legal_name,
    unp := d.unp.getD c.unp,
    status := d.status.getD c.status,
    org_type := d.org_type.getD c.org_type,
    tax_system := d.tax_system.getD c.tax_system,
    department_id := d.department_id.getD c.department_id,
    accountant_id := d.accountant_id.getD c.accountant_id,
    primary_accountant_id := d.primary_accountant_id.getD c.primary_accountant_id,
    payroll_accountant_id := d.payroll_accountant_id.getD c.payroll_accountant_id,
    hr_specialist_id := d.hr_specialist_id.getD c.hr_specialist_id,
    contact_info :=
      match d.contact_info with
      | none => c.contact_info
      | some u => patch_contact_data c.contact_info u,
    google_folder_id := d.google_folder_id.getD c.google_folder_id,
    updated_at := now }

/-- Writing a row back to the table by primary key (`asave`). -/
def saveClient (tbl : ClientTable) (c : Client) : ClientTable :=
  tbl.map (fun r => if r.id = c.id then c else r)

/-- The `update_client` service: apply the update to the already-fetched
row, save it, and re-fetch the canonical read shape through the same
selector. -/
def update_client (tbl : ClientTable) (c : Client) (d : ClientUpdate)
    (now : Nat) : ClientTable × Option Client :=
  let c' := applyClientUpdate c d now
  let tbl' := saveClient tbl c'
  (tbl', get_client_by_id tbl' c.id)

/-- `PATCH /clients/id`: look the target up through `get_client_by_id`,
404 when absent, otherwise run the update service (the post-save
re-fetch failing is the theoretically-impossible 500 branch). -/
def update_client_endpoint (tbl : ClientTable) (cid : Nat) (d : ClientUpdate)
    (now : Nat) : ClientTable × ApiResult Client :=
  match get_client_by_id tbl cid with
  | none => (tbl, ApiResult.err 404 notFoundMsg)
  | some c =>
    match update_client tbl c d now with
    | (tbl', none) => (tbl', ApiResult.err 500 "Client not found after update")
    | (tbl', some c') => (tbl', ApiResult.ok 200 c')

/-- `DELETE /clients/id`: look the target up through `get_client_by_id`,
404 when absent, otherwise soft delete it and answer 204. -/
def delete_client_endpoint (tbl : ClientTable) (cid : Nat) (now : Nat) :
    ClientTable × ApiResult Unit :=
  match get_client_by_id tbl cid with
  | none => (tbl, ApiResult.err 404 notFoundMsg)
  | some c => (saveClient tbl (c.adelete now).1, ApiResult.ok 204 ())

/-- C6: the get-by-id endpoint answers 404 exactly when no non-deleted
row with the id exists (absent or soft-deleted), and answers 200 with a
non-deleted row carrying the id otherwise; the patch and soft-delete
endpoints, which look the target up through the same selector, answer
404 under exactly the same condition. -/
theorem get_client_404_spec (tbl : ClientTable) (cid : Nat)
    (d : ClientUpdate) (now : Nat) :
    (get_client tbl cid = ApiResult.err 404 notFoundMsg ↔
      ¬ activeExists tbl cid) ∧
    (activeExists tbl cid →
      ∃ c, get_client tbl cid = ApiResult.ok 200 c ∧
        c ∈ tbl ∧ c.id = cid ∧ c.deleted_at = none) ∧
    ((update_client_endpoint tbl cid d now).2 = ApiResult.err 404 notFoundMsg ↔
      ¬ activeExists tbl cid) ∧
    ((delete_client_endpoint tbl cid now).2 = ApiResult.err 404 notFoundMsg ↔
      ¬ activeExists tbl cid) := by
  have hiff := get_client_by_id_isSome_iff tbl cid
  have hnone : get_client_by_id tbl cid = none → ¬ activeExists tbl cid := by
    intro h hex
    rw [← hiff, h] at hex
    simp at hex
  have hsome : ∀ c, get_client_by_id tbl cid = some c → activeExists tbl cid := by
    intro c h
    exact hiff.mp (by simp [h])
  refine ⟨?_, ?_, ?_, ?_⟩
  · unfold get_client
    cases h : get_client_by_id tbl cid with
    | none => exact iff_of_true rfl (hnone h)
    | some c =>
      refine iff_of_false (fun habs => ApiResult.noConfusion habs) ?_
      exact not_not.mpr (hsome c h)
  · intro hex
    obtain ⟨c, hc⟩ := Option.isSome_iff_exists.mp (hiff.mpr hex)
    refine ⟨c, ?_, get_client_by_id_sound tbl cid c hc⟩
    unfold get_client
    rw [hc]
  · unfold update_client_endpoint
    cases h : get_client_by_id tbl cid with
    | none => exact iff_of_true rfl (hnone h)
    | some c =>
      rcases hu : update_client tbl c d now with ⟨tbl2, r⟩
      cases r with
      | none =>
        refine iff_of_false ?_ (not_not.mpr (hsome c h))
        intro habs
        simp only [hu] at habs
        rw [ApiResult.err.injEq] at habs
        exact absurd habs.1 (by decide)
      | some c2 =>
        refine iff_of_false ?_ (not_not.mpr (hsome c h))
        intro habs
        simp only [hu] at habs
        exact ApiResult.noConfusion habs
  · unfold delete_client_endpoint
    cases h : get_client_by_id tbl cid with
    | none => exact iff_of_true rfl (hnone h)
    | some c =>
      exact iff_of_false (fun habs => ApiResult.noConfusion habs)
        (not_not.mpr (hsome c h))

/-- Concrete instance of C6: id 1 is served (200) from a table holding
the active demo client; id 2 is 404 on a table holding only the
soft-deleted client, for the get, patch and delete endpoints alike. -/
theorem get_client_404_spec_witness :
    (∃ c, get_client [demoClient] 1 = ApiResult.ok 200 c ∧
      c ∈ [demoClient] ∧ c.id = 1 ∧ c.deleted_at = none) ∧
    get_client [demoDeletedClient] 2 = ApiResult.err 404 notFoundMsg ∧
    (update_client_endpoint [demoDeletedClient] 2 {} 9).2 =
      ApiResult.err 404 notFoundMsg ∧
    (delete_client_endpoint [demoDeletedClient] 2 9).2 =
      ApiResult.err 404 notFoundMsg :=
  ⟨(get_client_404_spec [demoClient] 1 {} 9).2.1 (by decide),
   (get_client_404_spec [demoDeletedClient] 2 {} 9).1.mpr (by decide),
   (get_client_404_spec [demoDeletedClient] 2 {} 9).2.2.1.mpr (by decide),
   (get_client_404_spec [demoDeletedClient] 2 {} 9).2.2.2.mpr (by decide)⟩

/-! ## List endpoint with filters and pagination

Embedding of `ClientFilter` (`apps/clients/schemas/filters.py`), of
Ninja page-number pagination with the router's fixed `page_size=20`, and
of `list_clients` (`apps/clients/api/v1.py`). -/

/-- Case-insensitive substring containment (`icontains`). -/
def strContainsCI (hay needle : String) : Bool :=
  decide (List.IsInfix (needle.toList.map Char.toLower)
    (hay.toList.map Char.toLower))

/-- The optional list filters; an unset field filters nothing. -/
structure ClientFilter where
  search : Option String := none
  status : Option ClientStatus := none
  org_type : Option OrganizationType := none
  tax_system : Option TaxSystem := none
  department_id : Option Nat := none
  accountant_id : Option Nat := none
  primary_accountant_id : Option Nat := none
  payroll_accountant_id : Option Nat := none
  hr_specialist_id : Option Nat := none

/-- One row passes the filter: the search term, when set, matches one of
name, full legal name or UNP by `icontains` (an OR lookup), and every
set categorical or foreign-key filter matches by equality. -/
def ClientFilter.matches (f : ClientFilter) (c : Client) : Bool :=
  (match f.search with
   | none => true
   | some q => strContainsCI c.name q || strContainsCI c.full_legal_name q ||
       strContainsCI c.unp q) &&
  (match f.status with
   | none => true
   | some v => c.status == v) &&
  (match f.org_type with
   | none => true
   | some v => c.org_type == v) &&
  (match f.tax_system with
   | none => true
   | some v => c.tax_system == v) &&
  (match f.department_id with
   | none => true
   | some v => c.department_id == some v) &&
  (match f.accountant_id with
   | none => true
   | some v => c.accountant_id == some v) &&
  (match f.primary_accountant_id with
   | none => true
   | some v => c.primary_accountant_id == some v) &&
  (match f.payroll_accountant_id with
   | none => true
   | some v => c.payroll_accountant_id == some v) &&
  (match f.hr_specialist_id with
   | none => true
   | some v => c.hr_specialist_id == some v)

/-- `FilterSchema.filter` applied to a queryset. -/
def ClientFilter.filter (f : ClientFilter) (qs : List Client) : List Client :=
  qs.filter f.matches

/-- Ninja `PageNumberPagination`: 1-based pages, the requested slice of
the queryset, and the total count of the unpaginated queryset. -/
def paginate_queryset (pageSize page : Nat) (items : List α) :
    List α × Nat :=
  ((items.drop ((page - 1) * pageSize)).take pageSize, items.length)

/-- `GET /clients/` with the router's `page_size=20`: build the base
queryset, apply the filters lazily, paginate. -/
def list_clients (tbl : ClientTable) (filters : ClientFilter) (page : Nat) :
    List Client × Nat :=
  paginate_queryset 20 page (filters.filter (get_client_queryset tbl))

/-- The unset filter keeps every row. -/
theorem filter_default_id (qs : List Client) :
    ClientFilter.filter {} qs = qs := by
  unfold ClientFilter.filter
  rw [List.filter_eq_self]
  intro a _
  rfl

/-- C8: with a fixed page size of 20 and 25 non-deleted clients in the
table, the unfiltered list endpoint returns 20 items on page 1 and 5
items on page 2, both responses carrying a total count of 25. -/
theorem list_clients_pagination_spec (tbl : ClientTable)
    (h : (SoftDeleteQuerySet.active tbl).length = 25) :
    (list_clients tbl {} 1).1.length = 20 ∧ (list_clients tbl {} 1).2 = 25 ∧
    (list_clients tbl {} 2).1.length = 5 ∧ (list_clients tbl {} 2).2 = 25 := by
  have hq : (get_client_queryset tbl).length = 25 := by
    unfold get_client_queryset
    rw [List.length_insertionSort]
    exact h
  unfold list_clients paginate_queryset
  rw [filter_default_id]
  refine ⟨?_, hq, ?_, hq⟩
  · rw [List.length_take, List.length_drop, hq]
    decide
  · rw [List.length_take, List.length_drop, hq]
    decide

/-- A table of 25 distinct active clients. -/
def demoTable25 : ClientTable :=
  (List.range 25).map (fun i => { demoClient with id := i + 1 })

/-- Concrete instance of C8 over the 25-client demonstration table. -/
theorem list_clients_pagination_spec_witness :
    (list_clients demoTable25 {} 1).1.length = 20 ∧
    (list_clients demoTable25 {} 1).2 = 25 ∧
    (list_clients demoTable25 {} 2).1.length = 5 ∧
    (list_clients demoTable25 {} 2).2 = 25 :=
  list_clients_pagination_spec demoTable25 (by decide)

/-! ## Creation and the registered error handlers

Embedding of `ClientCreate` / `ClientContactInfo`
(`apps/clients/schemas/client.py`), of the `create_client` service, of
the database unique constraints on `Client` (`id` primary key, `unp`
with `unique=True` — a plain constraint over ALL rows, soft-deleted ones
included), and of the error handlers that are actually registered on the
API instance in `config/api.py`.

`apps/common/exceptions.py` defines `setup_exception_handlers`, whose
inner `integrity_error_handler` would answer a duplicate-UNP
`IntegrityError` with 409 and code `duplicate_unp` — but no module ever
calls `setup_exception_handlers`, so none of its handlers is registered.
The API instance in `config/api.py` registers only a `ValueError`
handler (400, code `validation_error`) and a catch-all `Exception`
handler (500, code `server_error`).  Handler resolution walks the
exception's class hierarchy, so an `IntegrityError` raised by the
duplicate-UNP insert is answered by the catch-all `Exception` handler:
500 with code `server_error`. -/

/-- The dict entry of one optional string under `exclude_none=True`. -/
def optEntry (name : String) : Option String → List (String × JVal)
  | none => []
  | some v => [(name, JVal.str v)]

/-- JSON dump of a contact person with nulls dropped (`exclude_none`
recurses into nested models). -/
def ContactPerson.toJValExcludeNone (p : ContactPerson) : JVal :=
  JVal.obj (optEntry "role" p.role ++ optEntry "full_name" p.full_name ++
    optEntry "email" p.email ++ optEntry "phone" p.phone)

/-- The full structured-contact schema used on creation. -/
structure ClientContactInfo where
  general_email : Option String := none
  general_phone : Option String := none
  address_legal : Option String := none
  address_mailing : Option String := none
  website : Option String := none
  contacts : List ContactPerson := []
deriving Repr, DecidableEq

/-- `model_dump(mode="json", exclude_none=True)` of the creation contact
payload: unset and null scalars are dropped, the contacts list (possibly
empty) is always serialized. -/
def ClientContactInfo.model_dump_exclude_none (ci : ClientContactInfo) :
    List (String × JVal) :=
  optEntry "general_email" ci.general_email ++
  optEntry "general_phone" ci.general_phone ++
  optEntry "address_legal" ci.address_legal ++
  optEntry "address_mailing" ci.address_mailing ++
  optEntry "website" ci.website ++
  [("contacts", JVal.arr (ci.contacts.map ContactPerson.toJValExcludeNone))]

/-- The POST schema `ClientCreate`: required name and UNP, defaulted
categorical fields, optional responsible-party references and contact
payload. -/
structure ClientCreate where
  name : String
  full_legal_name : Option String := none
  unp : String
  org_type : OrganizationType := .ooo
  tax_system : TaxSystem := .usn_no_nds
  status : ClientStatus := .onboarding
  department_id : Option Nat := none
  accountant_id : Option Nat := none
  primary_accountant_id : Option Nat := none
  payroll_accountant_id : Option Nat := none
  hr_specialist_id : Option Nat := none
  contact_info : ClientContactInfo := {}
  google_folder_id : Option String := none

/-- The row built by `Client.objects.acreate(**payload)`: the validated
input fields plus a fresh time-sortable id and the creation
timestamps. -/
def clientFromCreate (data : ClientCreate) (newId now : Nat) : Client :=
  { id := newId, created_at := now, updated_at := now, deleted_at := none,
    name := data.name, full_legal_name := data.full_legal_name.getD "",
    unp := data.unp, status := data.status, org_type := data.org_type,
    tax_system := data.tax_system, department_id := data.department_id,
    accountant_id := data.accountant_id,
    primary_accountant_id := data.primary_accountant_id,
    payroll_accountant_id := data.payroll_accountant_id,
    hr_specialist_id := data.hr_specialist_id,
    contact_info := JVal.obj data.contact_info.model_dump_exclude_none,
    google_folder_id := data.google_folder_id.getD "" }

/-- The violated-constraint messages raised by the database layer; the
constraint name contains the column name. -/
def pkeyConflictMsg : String :=
  "duplicate key value violates unique constraint clients_client_pkey"

def unpConflictMsg : String :=
  "duplicate key value violates unique constraint clients_client_unp_key"

/-- Inserting a row: the primary key and the `unp` column are unique
over the whole table (the `unique=True` constraint is not conditioned on
`deleted_at`), and a violation raises `IntegrityError` with the
constraint message. -/
def acreate (tbl : ClientTable) (c : Client) : Except String ClientTable :=
  if tbl.any (fun r => r.id == c.id) then Except.error pkeyConflictMsg
  else if tbl.any (fun r => r.unp == c.unp) then Except.error unpConflictMsg
  else Except.ok (tbl ++ [c])

/-- The `IntegrityError` handler defined (but NEVER registered — its
enclosing `setup_exception_handlers` has no call site) in
`apps/common/exceptions.py`: lower-case the exception text; answer 409
with code `duplicate_unp` when it mentions the `unp` constraint and 400
with code `integrity_error` otherwise.  Dead code in the source; kept
here only to document where the 409 contract would have come from.  No
endpoint composes it. -/
def integrity_error_handler (msg : String) : Nat × String :=
  if strContainsCI msg "unp" then (409, "duplicate_unp")
  else (400, "integrity_error")

/-- The catch-all `Exception` handler registered on the API instance in
`config/api.py`: status 500, machine-readable code `server_error` (the
body message is the generic `Internal Server Error`).  With no
`IntegrityError`-specific handler registered, this is the handler that
answers a duplicate-UNP insert. -/
def internal_server_error_handler : Nat × String := (500, "server_error")

/-- The `create_client` service: insert the built row, then re-fetch the
canonical read shape through the selector. -/
def create_client (tbl : ClientTable) (data : ClientCreate)
    (newId now : Nat) : Except String (ClientTable × Option Client) :=
  match acreate tbl (clientFromCreate data newId now) with
  | Except.error e => Except.error e
  | Except.ok tbl2 => Except.ok (tbl2, get_client_by_id tbl2 newId)

/-- `POST /clients/`: 201 with the created client; a constraint
violation bubbles, unhandled by any `IntegrityError`-specific handler,
to the registered catch-all `Exception` handler — 500 `server_error`
(the post-insert re-fetch failing is the theoretically-impossible
internal-error branch). -/
def create_client_endpoint (tbl : ClientTable) (data : ClientCreate)
    (newId now : Nat) : ClientTable × ApiResult Client :=
  match create_client tbl data newId now with
  | Except.error _ =>
    (tbl, ApiResult.err internal_server_error_handler.1
      internal_server_error_handler.2)
  | Except.ok (tbl2, some c) => (tbl2, ApiResult.ok 201 c)
  | Except.ok (tbl2, none) =>
    (tbl2, ApiResult.err 500 "Client not found immediately after creation")

/-- Appending a fresh active row makes it the row found by the selector
under its id. -/
theorem get_client_by_id_append_fresh (tbl : ClientTable) (c : Client)
    (hid : ∀ r ∈ tbl, r.id ≠ c.id) (hact : c.deleted_at = none) :
    get_client_by_id (tbl ++ [c]) c.id = some c := by
  unfold get_client_by_id
  have hsingle :
      (SoftDeleteQuerySet.active (tbl ++ [c])).filter (fun r => r.id == c.id) =
        [c] := by
    unfold SoftDeleteQuerySet.active
    rw [List.filter_append, List.filter_append]
    have h1 : (SoftDeleteQuerySet.active tbl).filter (fun r => r.id == c.id)
        = [] := by
      rw [List.filter_eq_nil_iff]
      intro a ha
      have := hid a (List.mem_of_mem_filter ha)
      simp [this]
    unfold SoftDeleteQuerySet.active at h1
    rw [h1]
    have hc : (SoftDeletable.deletedAt c).isNone = true :=
      Option.isNone_iff_eq_none.mpr hact
    have h2 : List.filter (fun r => (SoftDeletable.deletedAt r).isNone) [c]
        = [c] := by
      simp [List.filter, hc]
    rw [h2]
    simp [List.filter]
  have hperm :
      List.Perm
        ((get_client_queryset (tbl ++ [c])).filter (fun r => r.id == c.id))
        ((SoftDeleteQuerySet.active (tbl ++ [c])).filter (fun r => r.id == c.id)) :=
    (List.perm_insertionSort _ _).filter _
  rw [hsingle] at hperm
  rw [List.perm_singleton.mp hperm]
  rfl

/-- C4 fails as stated, on both of its halves.  Non-deleted duplicate:
over a table holding the active demo client (UNP `100000007`), creating
that UNP is answered 500 with code `server_error` — not 409
`duplicate_unp`, because the handler carrying that contract is never
registered and the `IntegrityError` falls through to the catch-all
`Exception` handler of `config/api.py`.  Soft-deleted duplicate: over a
table holding only the soft-deleted demo client with that UNP, creation
does not succeed either — the plain `unique=True` constraint spans
soft-deleted rows, and the same 500 `server_error` comes back. -/
theorem create_unp_conflict_500_counterexample :
    (create_client_endpoint [demoClient]
      { name := "Dup", unp := "100000007" } 3 9).2 =
      ApiResult.err 500 "server_error" ∧
    demoDeletedClient.deleted_at = some 5 ∧
    (create_client_endpoint [demoDeletedClient]
      { name := "New", unp := "100000007" } 3 9).2 =
      ApiResult.err 500 "server_error" :=
  ⟨rfl, rfl, rfl⟩

/-- C4 (amended): provided the freshly generated primary key is unused,
creating a client whose UNP is already present on ANY existing row —
soft-deleted or not — fails, answered by the registered catch-all
handler with 500 and code `server_error` (the 409 `duplicate_unp`
integrity handler exists in the source but is never registered), leaving
the table unchanged; creating a client whose UNP is on no row at all
(soft-deleted rows included) succeeds with 201 and appends the new
row. -/
theorem create_client_unp_conflict_spec (tbl : ClientTable)
    (data : ClientCreate) (newId now : Nat)
    (hids : ∀ r ∈ tbl, r.id ≠ newId) :
    ((∃ r ∈ tbl, r.unp = data.unp) →
      (create_client_endpoint tbl data newId now).2 =
        ApiResult.err 500 "server_error" ∧
      (create_client_endpoint tbl data newId now).1 = tbl) ∧
    ((∀ r ∈ tbl, r.unp ≠ data.unp) →
      (create_client_endpoint tbl data newId now).2 =
        ApiResult.ok 201 (clientFromCreate data newId now) ∧
      (create_client_endpoint tbl data newId now).1 =
        tbl ++ [clientFromCreate data newId now]) := by
  have hany_id : tbl.any (fun r => r.id == newId) = false := by
    rw [List.any_eq_false]
    intro r hr
    simp [hids r hr]
  constructor
  · intro ⟨r, hr, hunp⟩
    have hany_unp : tbl.any (fun r => r.unp == data.unp) = true :=
      List.any_eq_true.mpr ⟨r, hr, by simp [hunp]⟩
    constructor <;>
      simp [create_client_endpoint, create_client, acreate, clientFromCreate,
        hany_id, hany_unp, internal_server_error_handler]
  · intro hunps
    have hany_unp : tbl.any (fun r => r.unp == data.unp) = false := by
      rw [List.any_eq_false]
      intro r hr
      simp [hunps r hr]
    have hfetch := get_client_by_id_append_fresh tbl
      (clientFromCreate data newId now) (fun r hr => hids r hr) rfl
    constructor <;>
      simp [create_client_endpoint, create_client, acreate, clientFromCreate,
        hany_id, hany_unp] <;>
      simp [clientFromCreate] at hfetch <;>
      simp [hfetch]

/-- Concrete instance of C4 (amended): creating UNP `100000007` over the
table holding the active demo client with that UNP is answered 500
`server_error`; creating UNP `200000000` over the same table succeeds
with 201. -/
theorem create_client_unp_conflict_spec_witness :
    (create_client_endpoint [demoClient]
      { name := "Dup", unp := "100000007" } 3 9).2 =
      ApiResult.err 500 "server_error" ∧
    (create_client_endpoint [demoClient]
      { name := "Fresh", unp := "200000000" } 3 9).2 =
      ApiResult.ok 201
        (clientFromCreate { name := "Fresh", unp := "200000000" } 3 9) :=
  ⟨((create_client_unp_conflict_spec [demoClient]
      { name := "Dup", unp := "100000007" } 3 9 (by decide)).1 (by decide)).1,
   ((create_client_unp_conflict_spec [demoClient]
      { name := "Fresh", unp := "200000000" } 3 9 (by decide)).2
      (by decide)).1⟩

/-! ## The audit-history endpoint

Embedding of the pghistory event rows for `Client`
(`apps/clients/models.py`, `ClientEvent`) and of the staff-only history
endpoint `get_client_history` (`apps/clients/api/v1.py`).

An event row carries the serial event id, the creation timestamp, the
label (`insert`/`update`/`delete`), the tracked object id, the optional
diff and request context, and the full row snapshot.  `order_by` against
the event queryset resolves a column name: the event model's
naturally-ordered system columns are `pgh_id` and `pgh_created_at`, and
— exactly as in the ORM — a name that is not a column of the model is a
`FieldError`.  The endpoint orders by `history_created_at`, a column
name left over from a different history library, which is not a column
of the pghistory event model. -/

structure ClientEvent where
  pgh_id : Nat
  pgh_created_at : Nat
  pgh_label : String
  pgh_obj_id : Nat
  pgh_diff : Option (List (String × JVal)) := none
  pgh_context : Option (List (String × JVal)) := none
  snapshot : Client
deriving Repr

/-- The naturally-ordered system columns of the event model. -/
def ClientEvent.sortColumn? (e : ClientEvent) : String → Option Nat
  | "pgh_id" => some e.pgh_id
  | "pgh_created_at" => some e.pgh_created_at
  | _ => none

def clientEventSortableColumns : List String := ["pgh_id", "pgh_created_at"]

/-- `order_by("-field")` on the event queryset: descending stable sort
when the name resolves to a column, `FieldError` otherwise. -/
def orderByDesc (field : String) (events : List ClientEvent) :
    Except String (List ClientEvent) :=
  if field ∈ clientEventSortableColumns then
    Except.ok (List.insertionSort
      (fun a b => (ClientEvent.sortColumn? b field).getD 0 ≤
        (ClientEvent.sortColumn? a field).getD 0) events)
  else
    Except.error ("Cannot resolve keyword " ++ field ++ " into field")

inductive HistoryResponse where
  | forbidden (message : String)
  | notFound (message : String)
  | fieldError (message : String)
  | ok (events : List ClientEvent)
deriving Repr

/-- The 403 message of the history endpoint. -/
def staffOnlyMsg : String := "Журнал аудита доступен только администраторам."

/-- `GET /clients/id/history`: reject non-staff callers with 403 before
anything else; 404 through the shared selector; otherwise return
`client.events` ordered by `-history_created_at` — a lookup that raises
`FieldError` (surfaced as a 500 by the global handler), because the
event model has no such column. -/
def get_client_history (isStaff : Bool) (tbl : ClientTable)
    (events : List ClientEvent) (cid : Nat) : HistoryResponse :=
  if !isStaff then HistoryResponse.forbidden staffOnlyMsg
  else
    match get_client_by_id tbl cid with
    | none => HistoryResponse.notFound notFoundMsg
    | some c =>
      match orderByDesc "history_created_at"
          (events.filter (fun e => e.pgh_obj_id == c.id)) with
      | Except.error m => HistoryResponse.fieldError m
      | Except.ok evs => HistoryResponse.ok evs

/-- C7: a non-staff caller is rejected with the 403 response before any
lookup, whatever the table, the event log and the requested id, and no
history data is returned. -/
theorem history_forbidden_for_non_staff_spec (tbl : ClientTable)
    (events : List ClientEvent) (cid : Nat) :
    get_client_history false tbl events cid =
      HistoryResponse.forbidden staffOnlyMsg := rfl

/-- A one-event demonstration audit log for the demo client. -/
def demoEvent : ClientEvent :=
  { pgh_id := 1, pgh_created_at := 10, pgh_label := "insert",
    pgh_obj_id := 1, snapshot := demoClient }

/-- C3 evaluated at its failing input: a staff request for the history
of the existing demo client does not produce the ordered event list the
claim describes — the ordering lookup `history_created_at` is not a
column of the event model and the request dies with a `FieldError`. -/
theorem get_client_history_field_error :
    get_client_history true [demoClient] [demoEvent] 1 =
      HistoryResponse.fieldError
        "Cannot resolve keyword history_created_at into field" := rfl

end Kronon
